import Mathlib

set_option maxRecDepth 16000

/-!
Shallow embedding of the Resume-Builder repository.

The repository holds two Python programs built around the same data model:
* `src/resume.py` — prompt-driven collector (`interactive_fill`) plus a
  Jinja2 single-column template rendered by `render_html`;
* `src/resume1.py` — a Streamlit form collector plus a Jinja2 two-column
  template rendered at the bottom of the script.

Text is modelled as `List Char` (`Str`); Python/Jinja string operations
(`str.strip`, `str.split("\n")`, `", ".join`, truthiness of strings and
lists, `x or d`) are embedded as executable Lean functions.  The two Jinja
templates are transcribed chunk-for-chunk with Jinja's default whitespace
behaviour (literal text outside tags is kept verbatim, tags themselves
produce nothing; both templates are rendered with `autoescape` left at its
default `False`, so `{{ x }}` inserts the value verbatim).  `resume.py` is
stored double-encoded on disk, so its em-dash separator is the literal
character sequence `â€”` and its middot is `Â·`; `resume1.py` uses the
proper `·` and `—`.  The interactive prompt loops of `resume.py` are
embedded as functions consuming an explicit list of input lines (the stdin
script); reaching the end of the list is modelled as end of collection.
The loop collectors use a fuel argument set to `length + 1`, which can
never be exhausted because every loop iteration consumes at least one
input line.
-/

/-- Text, modelled as a list of characters. -/
abbrev Str := List Char

/-- The characters Python's `str.strip()` removes (ASCII whitespace). -/
def isSpace (c : Char) : Bool :=
  c = ' ' || c = '\t' || c = '\n' || c = '\r' || c = '\x0b' || c = '\x0c'

/-- Python `str.strip()`: drop whitespace from both ends. -/
def strip (s : Str) : Str :=
  ((s.dropWhile isSpace).reverse.dropWhile isSpace).reverse

/-- Jinja / Python `x or d` on strings: the empty string is falsy. -/
def jinjaOr (s d : Str) : Str :=
  if s = [] then d else s

/-- Python `sep.join(parts)`. -/
def joinSep (sep : Str) : List Str → Str
  | [] => []
  | [x] => x
  | x :: y :: rest => x ++ sep ++ joinSep sep (y :: rest)

/-- Python `s.split("\n")`: split on every newline, keeping empty pieces
(`"".split("\n") = [""]`, `"a\n\nb".split("\n") = ["a","","b"]`). -/
def splitNl : Str → List Str
  | [] => [[]]
  | c :: rest =>
    if c = '\n' then [] :: splitNl rest
    else
      match splitNl rest with
      | [] => [[c]]
      | h :: t => (c :: h) :: t

/-- Python `"\n".join(parts)`. -/
def joinNl : List Str → Str := joinSep ['\n']

/-- One `input()` call on the remaining stdin script (end of input reads as
the empty line). -/
def take1 : List Str → Str × List Str
  | [] => ([], [])
  | x :: rest => (x, rest)

/-- Concatenation of the rendered pieces of a Jinja `for` loop. -/
def catMap (f : α → Str) : List α → Str
  | [] => []
  | x :: rest => f x ++ catMap f rest

/-- One job dict of the `experience` list. -/
structure JobEntry where
  title : Str
  company : Str
  start_date : Str
  end_date : Str
  location : Str
  responsibilities : List Str
deriving DecidableEq

/-- One education dict. -/
structure EducationEntry where
  degree : Str
  institution : Str
  start_date : Str
  end_date : Str
  location : Str
  details : Str
deriving DecidableEq

/-- One project dict. -/
structure ProjectEntry where
  name : Str
  link : Str
  description : Str
  points : List Str
deriving DecidableEq

/-- The resume data handed to the templates (`data` in both scripts). -/
structure ResumeRecord where
  name : Str
  tagline : Str
  email : Str
  phone : Str
  location : Str
  linkedin : Str
  github : Str
  summary : Str
  experience : List JobEntry
  education : List EducationEntry
  projects : List ProjectEntry
  skills : List Str
  strengths : List Str
deriving DecidableEq

/-- A record with the given name and every optional field empty. -/
def degenerate (n : Str) : ResumeRecord :=
  { name := n, tagline := [], email := [], phone := [], location := [],
    linkedin := [], github := [], summary := [], experience := [],
    education := [], projects := [], skills := [], strengths := [] }

namespace Resume

/-! Transcription of `src/resume.py` (single-column template, prompt
collector, `render_html`). -/

/-- `TEMPLATE` up to the `{{ css }}` slot: doctype, head, title. -/
def docHead (n css : Str) : Str :=
  ("\n<!doctype html>\n<html>\n<head>\n  <meta charset=\"utf-8\">\n  <meta name=\"viewport\" content=\"width=device-width,initial-scale=1\">\n  <title>").data
  ++ n ++ (" - Resume</title>\n  <style>").data ++ css

/-- The header block: name, optional tagline, conditional contact lines. -/
def headerBlock (d : ResumeRecord) : Str :=
  ("</style>\n</head>\n<body>\n  <div class=\"container\">\n    <div class=\"header\">\n      <div>\n        <div class=\"name\">").data
  ++ d.name ++ ("</div>\n        ").data
  ++ (if d.tagline = [] then [] else ("<div>").data ++ d.tagline ++ ("</div>").data)
  ++ ("\n      </div>\n      <div class=\"contact\">\n        ").data
  ++ (if d.email = [] then [] else d.email ++ ("<br>").data)
  ++ ("\n        ").data
  ++ (if d.phone = [] then [] else d.phone ++ ("<br>").data)
  ++ ("\n        ").data
  ++ (if d.location = [] then [] else d.location ++ ("<br>").data)
  ++ ("\n        ").data
  ++ (if d.linkedin = [] then [] else ("LinkedIn: ").data ++ d.linkedin ++ ("<br>").data)
  ++ ("\n        ").data
  ++ (if d.github = [] then [] else ("GitHub: ").data ++ d.github)
  ++ ("\n      </div>\n    </div>").data

/-- The literal text between an `{% endif %}` of one section and the
`{% if %}` of the next. -/
def gap : Str := ("\n\n    ").data

/-- The `{% if summary %}` section body. -/
def summarySec (s : Str) : Str :=
  if s = [] then [] else
    ("\n    <div class=\"section\">\n      <h2>Summary</h2>\n      <div class=\"summary\">").data
    ++ s ++ ("</div>\n    </div>\n    ").data

/-- One `<li>` of a job's responsibilities loop. -/
def respLi (r : Str) : Str :=
  ("\n          <li>").data ++ r ++ ("</li>\n          ").data

/-- The `{% if job.responsibilities %}` bullet list. -/
def respBlock (rs : List Str) : Str :=
  if rs = [] then [] else
    ("\n        <ul>\n          ").data ++ catMap respLi rs ++ ("\n        </ul>\n        ").data

/-- The part of a job's markup before the `{{ job.end_date or 'Present' }}`
slot (title, company, start date). -/
def jobPre (j : JobEntry) : Str :=
  ("\n      <div class=\"job\">\n        <div class=\"title\">").data ++ j.title
  ++ (" â€” ").data ++ j.company
  ++ ("</div>\n        <div class=\"meta\">").data ++ j.start_date
  ++ (" â€” ").data

/-- The part of a job's markup after the end-date slot. -/
def jobPost (j : JobEntry) : Str :=
  (" Â· ").data ++ jinjaOr j.location []
  ++ ("</div>\n        ").data ++ respBlock j.responsibilities
  ++ ("\n      </div>\n      ").data

/-- One iteration of `{% for job in experience %}`. -/
def jobHtml (j : JobEntry) : Str :=
  jobPre j ++ jinjaOr j.end_date ("Present").data ++ jobPost j

/-- The `{% if experience %}` section body. -/
def experienceSec (l : List JobEntry) : Str :=
  if l = [] then [] else
    ("\n    <div class=\"section\">\n      <h2>Experience</h2>\n      ").data
    ++ catMap jobHtml l ++ ("\n    </div>\n    ").data

/-- One iteration of `{% for e in education %}`. -/
def eduHtml (e : EducationEntry) : Str :=
  ("\n      <div class=\"education\">\n        <div class=\"title\">").data ++ e.degree
  ++ (" â€” ").data ++ e.institution
  ++ ("</div>\n        <div class=\"meta\">").data ++ e.start_date
  ++ (" â€” ").data ++ jinjaOr e.end_date []
  ++ (" Â· ").data ++ jinjaOr e.location []
  ++ ("</div>\n        ").data
  ++ (if e.details = [] then [] else ("<div>").data ++ e.details ++ ("</div>").data)
  ++ ("\n      </div>\n      ").data

/-- The `{% if education %}` section body. -/
def educationSec (l : List EducationEntry) : Str :=
  if l = [] then [] else
    ("\n    <div class=\"section\">\n      <h2>Education</h2>\n      ").data
    ++ catMap eduHtml l ++ ("\n    </div>\n    ").data

/-- One `<li>` of a project's points loop. -/
def pointLi (pt : Str) : Str :=
  ("\n          <li>").data ++ pt ++ ("</li>\n          ").data

/-- The `{% if p.points %}` bullet list. -/
def pointsBlock (ps : List Str) : Str :=
  if ps = [] then [] else
    ("\n        <ul>\n          ").data ++ catMap pointLi ps ++ ("\n        </ul>\n        ").data

/-- One iteration of `{% for p in projects %}`. -/
def projHtml (p : ProjectEntry) : Str :=
  ("\n      <div class=\"project\">\n        <div class=\"title\">").data ++ p.name
  ++ ("</div>\n        ").data
  ++ (if p.link = [] then [] else ("<div class=\"meta\">").data ++ p.link ++ ("</div>").data)
  ++ ("\n        ").data
  ++ (if p.description = [] then [] else ("<div>").data ++ p.description ++ ("</div>").data)
  ++ ("\n        ").data ++ pointsBlock p.points
  ++ ("\n      </div>\n      ").data

/-- The `{% if projects %}` section body. -/
def projectsSec (l : List ProjectEntry) : Str :=
  if l = [] then [] else
    ("\n    <div class=\"section\">\n      <h2>Projects</h2>\n      ").data
    ++ catMap projHtml l ++ ("\n    </div>\n    ").data

/-- One `<li>` of the skills loop. -/
def skillLi (s : Str) : Str :=
  ("\n        <li>").data ++ s ++ ("</li>\n      ").data

/-- The `{% if skills %}` section body. -/
def skillsSec (l : List Str) : Str :=
  if l = [] then [] else
    ("\n    <div class=\"section\">\n      <h2>Skills</h2>\n      <ul>\n      ").data
    ++ catMap skillLi l ++ ("\n      </ul>\n    </div>\n    ").data

/-- One `<li>` of the strengths loop. -/
def strengthLi (s : Str) : Str :=
  ("\n        <li>").data ++ s ++ ("</li>\n        ").data

/-- The `{% if strengths %}` section body. -/
def strengthsSec (l : List Str) : Str :=
  if l = [] then [] else
    ("\n    <div class=\"section\">\n      <h2>Strengths</h2>\n      <ul>\n        ").data
    ++ catMap strengthLi l ++ ("\n      </ul>\n    </div>\n    ").data

/-- The footer stamp and document tail. -/
def footerHtml (g : Str) : Str :=
  ("\n\n    <div style=\"margin-top:20px; font-size:12px; color:#888\">Generated on ").data
  ++ g ++ ("</div>\n  </div>\n</body>\n</html>\n").data

/-- `Template(TEMPLATE).render(css=css, generated_on=g, **data)`. -/
def renderHtml (d : ResumeRecord) (css g : Str) : Str :=
  docHead d.name css ++ headerBlock d
  ++ gap ++ summarySec d.summary
  ++ gap ++ experienceSec d.experience
  ++ gap ++ educationSec d.education
  ++ gap ++ projectsSec d.projects
  ++ gap ++ skillsSec d.skills
  ++ gap ++ strengthsSec d.strengths
  ++ footerHtml g

/-- A UTC wall-clock instant as used by `datetime.utcnow()`. -/
structure UTCTime where
  year : Nat
  month : Nat
  day : Nat
  hour : Nat
  minute : Nat

/-- Decimal digits of a natural number. -/
def natStr (n : Nat) : Str := (Nat.repr n).data

/-- Zero-pad to two digits (`%m`, `%d`, `%H`, `%M`). -/
def pad2 (n : Nat) : Str :=
  if n < 10 then '0' :: natStr n else natStr n

/-- Zero-pad to four digits (`%Y`). -/
def pad4 (n : Nat) : Str :=
  List.replicate (4 - (natStr n).length) '0' ++ natStr n

/-- `datetime.utcnow().strftime('%Y-%m-%d %H:%M UTC')`. -/
def strftimeUtc (t : UTCTime) : Str :=
  pad4 t.year ++ ('-' :: pad2 t.month) ++ ('-' :: pad2 t.day)
  ++ (' ' :: pad2 t.hour) ++ (':' :: pad2 t.minute) ++ (" UTC").data

/-- `render_html(data, css)` at UTC instant `t`. -/
def render_html (d : ResumeRecord) (css : Str) (t : UTCTime) : Str :=
  renderHtml d css (strftimeUtc t)

/-- The output on a degenerate record: head, name and an empty tagline
slot, five empty contact slots, six empty section slots, footer — no
section markup and no `<h2>` anywhere. -/
def minimalHtml (n css g : Str) : Str :=
  docHead n css
  ++ ("</style>\n</head>\n<body>\n  <div class=\"container\">\n    <div class=\"header\">\n      <div>\n        <div class=\"name\">").data
  ++ n ++ ("</div>\n        ").data
  ++ ("\n      </div>\n      <div class=\"contact\">\n        ").data
  ++ ("\n        ").data ++ ("\n        ").data ++ ("\n        ").data ++ ("\n        ").data
  ++ ("\n      </div>\n    </div>").data
  ++ gap ++ gap ++ gap ++ gap ++ gap ++ gap
  ++ footerHtml g

/-! The prompt collectors of `interactive_fill`, as functions of the list
of stdin lines they consume.  Each returns the collected value and the
unconsumed rest of the lines. -/

/-- The inner bullet loop (`responsibilities`, project highlights,
sub-skills, strengths): read lines until a blank (whitespace-only) one,
storing each non-blank line stripped. -/
def collectLines : List Str → List Str × List Str
  | [] => ([], [])
  | r :: rest =>
    if strip r = [] then ([], rest)
    else
      let p := collectLines rest
      (strip r :: p.1, p.2)

/-- `data['summary'] = summary if summary.strip() else ""`. -/
def normalizeSummary (s : Str) : Str :=
  if strip s = [] then [] else s

/-- The stored skill string: `f"{main}: {', '.join(subskills)}"` when
sub-skills exist, otherwise `main`. -/
def skillJoin (main : Str) (subs : List Str) : Str :=
  if subs = [] then main else main ++ (": ").data ++ joinSep (", ").data subs

/-- The experience loop: a blank job title ends the group; otherwise read
company, start, end, location and the responsibilities bullet loop. -/
def collectExpGo : Nat → List Str → List JobEntry × List Str
  | 0, inputs => ([], inputs)
  | fuel + 1, inputs =>
    match inputs with
    | [] => ([], [])
    | title :: rest =>
      if strip title = [] then ([], rest)
      else
        let company := take1 rest
        let start := take1 company.2
        let endd := take1 start.2
        let loc := take1 endd.2
        let resps := collectLines loc.2
        let more := collectExpGo fuel resps.2
        ({ title := title, company := company.1, start_date := start.1,
           end_date := endd.1, location := loc.1,
           responsibilities := resps.1 } :: more.1, more.2)

/-- The experience loop of `interactive_fill`. -/
def collectExperience (inputs : List Str) : List JobEntry × List Str :=
  collectExpGo (inputs.length + 1) inputs

/-- The education loop: a blank degree ends the group; otherwise read
institution, start, end, location, details. -/
def collectEduGo : Nat → List Str → List EducationEntry × List Str
  | 0, inputs => ([], inputs)
  | fuel + 1, inputs =>
    match inputs with
    | [] => ([], [])
    | degree :: rest =>
      if strip degree = [] then ([], rest)
      else
        let inst := take1 rest
        let start := take1 inst.2
        let endd := take1 start.2
        let loc := take1 endd.2
        let details := take1 loc.2
        let more := collectEduGo fuel details.2
        ({ degree := degree, institution := inst.1, start_date := start.1,
           end_date := endd.1, location := loc.1,
           details := details.1 } :: more.1, more.2)

/-- The education loop of `interactive_fill`. -/
def collectEducation (inputs : List Str) : List EducationEntry × List Str :=
  collectEduGo (inputs.length + 1) inputs

/-- The projects loop: a blank project name ends the group; otherwise read
link, description and the highlights bullet loop. -/
def collectProjGo : Nat → List Str → List ProjectEntry × List Str
  | 0, inputs => ([], inputs)
  | fuel + 1, inputs =>
    match inputs with
    | [] => ([], [])
    | pname :: rest =>
      if strip pname = [] then ([], rest)
      else
        let plink := take1 rest
        let pdesc := take1 plink.2
        let points := collectLines pdesc.2
        let more := collectProjGo fuel points.2
        ({ name := pname, link := plink.1, description := pdesc.1,
           points := points.1 } :: more.1, more.2)

/-- The projects loop of `interactive_fill`. -/
def collectProjects (inputs : List Str) : List ProjectEntry × List Str :=
  collectProjGo (inputs.length + 1) inputs

/-- The skills loop: a blank main skill ends the group; otherwise read the
sub-skill bullet loop and store the joined skill string. -/
def collectSkillsGo : Nat → List Str → List Str × List Str
  | 0, inputs => ([], inputs)
  | fuel + 1, inputs =>
    match inputs with
    | [] => ([], [])
    | main :: rest =>
      if strip main = [] then ([], rest)
      else
        let subs := collectLines rest
        let more := collectSkillsGo fuel subs.2
        (skillJoin main subs.1 :: more.1, more.2)

/-- The skills loop of `interactive_fill`. -/
def collectSkills (inputs : List Str) : List Str × List Str :=
  collectSkillsGo (inputs.length + 1) inputs

/-- The strengths loop of `interactive_fill`: a blank line stops, each
non-blank line is stored stripped — the same shape as `collectLines`. -/
def collectStrengths (inputs : List Str) : List Str × List Str :=
  collectLines inputs

end Resume

namespace Resume1

/-! Transcription of `src/resume1.py` (two-column template and the
Streamlit form collectors). -/

/-- `TEMPLATE` up to the `{{ css }}` slot. -/
def docHead (n css : Str) : Str :=
  ("\n<!doctype html>\n<html>\n<head>\n  <meta charset=\"utf-8\">\n  <meta name=\"viewport\" content=\"width=device-width,initial-scale=1\">\n  <title>").data
  ++ n ++ (" - Resume</title>\n  <style>").data ++ css

/-- The sidebar contact block (heading is unconditional, lines are not). -/
def contactBlock (d : ResumeRecord) : Str :=
  (if d.email = [] then [] else ("<div>").data ++ d.email ++ ("</div>").data)
  ++ ("\n    ").data
  ++ (if d.phone = [] then [] else ("<div>").data ++ d.phone ++ ("</div>").data)
  ++ ("\n    ").data
  ++ (if d.location = [] then [] else ("<div>").data ++ d.location ++ ("</div>").data)
  ++ ("\n    ").data
  ++ (if d.linkedin = [] then [] else ("<div>LinkedIn: ").data ++ d.linkedin ++ ("</div>").data)
  ++ ("\n    ").data
  ++ (if d.github = [] then [] else ("<div>GitHub: ").data ++ d.github ++ ("</div>").data)

/-- One `<li>` of the sidebar skills loop. -/
def skillLi (s : Str) : Str :=
  ("\n        <li>").data ++ s ++ ("</li>\n      ").data

/-- The `{% if skills %}` sidebar section. -/
def skillsSec (l : List Str) : Str :=
  if l = [] then [] else
    ("\n    <h2>Skills</h2>\n    <ul>\n      ").data ++ catMap skillLi l
    ++ ("\n    </ul>\n    ").data

/-- One `<li>` of the sidebar strengths loop. -/
def strengthLi (s : Str) : Str :=
  ("\n      <li>").data ++ s ++ ("</li>\n      ").data

/-- The `{% if strengths %}` sidebar section. -/
def strengthsSec (l : List Str) : Str :=
  if l = [] then [] else
    ("\n    <h2>Strengths</h2>\n    <ul>\n      ").data ++ catMap strengthLi l
    ++ ("\n    </ul>\n    ").data

/-- One iteration of the sidebar education loop (no `or` default on the
end date here). -/
def eduHtml (e : EducationEntry) : Str :=
  ("\n      <div><b>").data ++ e.degree ++ ("</b><br>").data ++ e.institution
  ++ ("<br>").data ++ e.start_date ++ (" - ").data ++ e.end_date
  ++ ("</div>\n    ").data

/-- The `{% if education %}` sidebar section. -/
def educationSec (l : List EducationEntry) : Str :=
  if l = [] then [] else
    ("\n    <h2>Education</h2>\n    ").data ++ catMap eduHtml l ++ ("\n    ").data

/-- The `{% if summary %}` main section. -/
def summarySec (s : Str) : Str :=
  if s = [] then [] else
    ("\n    <h2>Summary</h2>\n    <p>").data ++ s ++ ("</p>\n    ").data

/-- One `<li>` of a job's responsibilities loop (rendered unconditionally,
even when the list is empty the `<ul>` frame stays). -/
def respLi (r : Str) : Str :=
  ("\n          <li>").data ++ r ++ ("</li>\n        ").data

/-- The part of a job's markup before the `{{ job.end_date or 'Present' }}`
slot. -/
def jobPre (j : JobEntry) : Str :=
  ("\n      <div>\n        <div class=\"title\">").data ++ j.title
  ++ ("</div>\n        <div>").data ++ j.company
  ++ (" · ").data ++ j.start_date ++ (" — ").data

/-- The part of a job's markup after the end-date slot. -/
def jobPost (j : JobEntry) : Str :=
  ("</div>\n        <ul>\n        ").data ++ catMap respLi j.responsibilities
  ++ ("\n        </ul>\n      </div>\n    ").data

/-- One iteration of `{% for job in experience %}`. -/
def jobHtml (j : JobEntry) : Str :=
  jobPre j ++ jinjaOr j.end_date ("Present").data ++ jobPost j

/-- The `{% if experience %}` main section. -/
def experienceSec (l : List JobEntry) : Str :=
  if l = [] then [] else
    ("\n    <h2>Experience</h2>\n    ").data ++ catMap jobHtml l ++ ("\n    ").data

/-- One `<li>` of a project's points loop. -/
def pointLi (pt : Str) : Str :=
  ("\n          <li>").data ++ pt ++ ("</li>\n        ").data

/-- One iteration of `{% for p in projects %}` (the project link is
collected by the form but never rendered by this template). -/
def projHtml (p : ProjectEntry) : Str :=
  ("\n      <div>\n        <div class=\"title\">").data ++ p.name
  ++ ("</div>\n        ").data
  ++ (if p.description = [] then [] else ("<p>").data ++ p.description ++ ("</p>").data)
  ++ ("\n        <ul>\n        ").data ++ catMap pointLi p.points
  ++ ("\n        </ul>\n      </div>\n    ").data

/-- The `{% if projects %}` main section. -/
def projectsSec (l : List ProjectEntry) : Str :=
  if l = [] then [] else
    ("\n    <h2>Projects</h2>\n    ").data ++ catMap projHtml l ++ ("\n    ").data

/-- `Template(TEMPLATE).render(css=CSS, **data)` — the two-column layout;
note there is no generation-timestamp slot anywhere in this template. -/
def renderForm (d : ResumeRecord) (css : Str) : Str :=
  docHead d.name css
  ++ ("</style>\n</head>\n<body>\n<div class=\"container\">\n  <!-- Sidebar -->\n  <div class=\"sidebar\">\n    <h2>Contact</h2>\n    ").data
  ++ contactBlock d
  ++ ("\n\n    ").data ++ skillsSec d.skills
  ++ ("\n\n    ").data ++ strengthsSec d.strengths
  ++ ("\n\n    ").data ++ educationSec d.education
  ++ ("\n  </div>\n\n  <!-- Main Content -->\n  <div class=\"main\">\n    <h1 class=\"name\">").data
  ++ d.name ++ ("</h1>\n    ").data
  ++ (if d.tagline = [] then [] else ("<p>").data ++ d.tagline ++ ("</p>").data)
  ++ ("\n\n    ").data ++ summarySec d.summary
  ++ ("\n\n    ").data ++ experienceSec d.experience
  ++ ("\n\n    ").data ++ projectsSec d.projects
  ++ ("\n  </div>\n</div>\n</body>\n</html>\n").data

/-- `resps.split("\n") if resps else []` — the form's text-area to bullet
list conversion (used for responsibilities, project points, strengths). -/
def formSplitLines (s : Str) : List Str :=
  if s = [] then [] else splitNl s

/-- One form skill row: `if main_skill: append(main+": "+subs if subs else
main)` — the comma-separated sub-skill text is used verbatim. -/
def formSkillEntry (main subs : Str) : List Str :=
  if main = [] then []
  else if subs = [] then [main]
  else [main ++ (": ").data ++ subs]

end Resume1

/-- `ordered ts s` — the texts `ts` occur in `s`, in this order, as
pairwise disjoint substrings read left to right. -/
def ordered : List Str → Str → Prop
  | [], _ => True
  | t :: ts, s => ∃ x y, s = x ++ t ++ y ∧ ordered ts y

/-! Generic lemmas about infixes, in-order occurrence, and the shared
string helpers. -/

theorem infix_app_left (x : Str) {m y : Str} (h : m <:+: y) : m <:+: x ++ y := by
  obtain ⟨s, t, e⟩ := h
  exact ⟨x ++ s, t, by rw [← e]; simp⟩

theorem infix_app_right {m x : Str} (y : Str) (h : m <:+: x) : m <:+: x ++ y := by
  obtain ⟨s, t, e⟩ := h
  exact ⟨s, t ++ y, by rw [← e]; simp⟩

theorem infix_mid (x y : Str) (m : Str) : m <:+: x ++ m ++ y :=
  ⟨x, y, rfl⟩

theorem ordered_nil (s : Str) : ordered [] s := trivial

theorem ordered_app_right {ts : List Str} {s : Str} (y : Str) (h : ordered ts s) :
    ordered ts (s ++ y) := by
  induction ts generalizing s with
  | nil => trivial
  | cons t ts ih =>
    obtain ⟨x, z, e, h'⟩ := h
    exact ⟨x, z ++ y, by rw [e]; simp, ih h'⟩

theorem ordered_app_left {ts : List Str} {s : Str} (x : Str) (h : ordered ts s) :
    ordered ts (x ++ s) := by
  cases ts with
  | nil => trivial
  | cons t ts =>
    obtain ⟨x', y, e, h'⟩ := h
    exact ⟨x ++ x', y, by rw [e]; simp, h'⟩

theorem ordered_of_inf {ts : List Str} {s s' : Str} (hsub : s <:+: s')
    (h : ordered ts s) : ordered ts s' := by
  obtain ⟨a, b, e⟩ := hsub
  rw [← e, List.append_assoc]
  exact ordered_app_left a (ordered_app_right b h)

theorem ordered_catMap {α : Type} (key : α → Str) (f : α → Str)
    (hf : ∀ a, ∃ x y, f a = x ++ key a ++ y) :
    ∀ l : List α, ordered (l.map key) (catMap f l) := by
  intro l
  induction l with
  | nil => trivial
  | cons a rest ih =>
    obtain ⟨x, y, e⟩ := hf a
    exact ⟨x, y ++ catMap f rest, by simp [catMap, e], ordered_app_left _ ih⟩

theorem mem_catMap_inf {α : Type} (f : α → Str) {a : α} :
    ∀ {l : List α}, a ∈ l → f a <:+: catMap f l := by
  intro l h
  induction l with
  | nil => cases h
  | cons b rest ih =>
    rcases List.mem_cons.mp h with rfl | h'
    · exact infix_app_right _ (List.infix_refl _)
    · exact infix_app_left _ (ih h')


theorem strip_eq_nil_iff {s : Str} : strip s = [] ↔ ∀ c ∈ s, isSpace c := by
  unfold strip
  rw [List.reverse_eq_nil_iff, List.dropWhile_eq_nil_iff]
  constructor
  · intro h c hc
    have hsplit : c ∈ s.takeWhile isSpace ++ s.dropWhile isSpace := by
      rw [List.takeWhile_append_dropWhile]; exact hc
    rcases List.mem_append.mp hsplit with h1 | h2
    · exact List.mem_takeWhile_imp h1
    · exact h c (List.mem_reverse.mpr h2)
  · intro h c hc
    exact h c ((List.dropWhile_sublist isSpace).subset (List.mem_reverse.mp hc))

theorem exists_nonspace_of_strip_ne {s : Str} (h : strip s ≠ []) :
    ∃ c ∈ s, isSpace c = false := by
  have h' := mt strip_eq_nil_iff.mpr h
  push_neg at h'
  simpa using h'

theorem exists_false_mem_dropWhile (p : Char → Bool) :
    ∀ l : Str, l.dropWhile p ≠ [] → ∃ c ∈ l.dropWhile p, p c = false := by
  intro l
  induction l with
  | nil => intro h; simp at h
  | cons a l ih =>
    intro h
    by_cases ha : p a
    · rw [List.dropWhile_cons_of_pos ha] at h ⊢
      exact ih h
    · rw [List.dropWhile_cons_of_neg ha] at h ⊢
      exact ⟨a, List.mem_cons_self a l, by simpa using ha⟩

theorem exists_nonspace_mem_strip {s : Str} (h : strip s ≠ []) :
    ∃ c ∈ strip s, isSpace c = false := by
  unfold strip at h ⊢
  rw [List.reverse_ne_nil_iff] at h
  obtain ⟨c, hc, hcp⟩ := exists_false_mem_dropWhile isSpace _ h
  exact ⟨c, List.mem_reverse.mpr hc, hcp⟩

theorem splitNl_ne_nil : ∀ s : Str, splitNl s ≠ [] := by
  intro s
  cases s with
  | nil => simp [splitNl]
  | cons c rest =>
    by_cases h : c = '\n'
    · simp [splitNl, h]
    · cases hs : splitNl rest <;> simp [splitNl, h, hs]

theorem joinNl_splitNl : ∀ s : Str, joinNl (splitNl s) = s := by
  intro s
  induction s with
  | nil => rfl
  | cons c rest ih =>
    by_cases h : c = '\n'
    · subst h
      obtain ⟨h1, t1, e⟩ : ∃ h1 t1, splitNl rest = h1 :: t1 := by
        cases hs : splitNl rest with
        | nil => exact absurd hs (splitNl_ne_nil rest)
        | cons h1 t1 => exact ⟨h1, t1, rfl⟩
      rw [splitNl, if_pos rfl, e]
      rw [e] at ih
      simpa [joinNl, joinSep] using ih
    · obtain ⟨h1, t1, e⟩ : ∃ h1 t1, splitNl rest = h1 :: t1 := by
        cases hs : splitNl rest with
        | nil => exact absurd hs (splitNl_ne_nil rest)
        | cons h1 t1 => exact ⟨h1, t1, rfl⟩
      rw [splitNl, if_neg h, e]
      rw [e] at ih
      cases t1 with
      | nil => simpa [joinNl, joinSep] using ih
      | cons h2 t2 =>
        simp only [joinNl, joinSep] at ih ⊢
        simp only [List.cons_append]
        rw [ih]

theorem collectLines_blank {r : Str} (rest : List Str) (h : strip r = []) :
    Resume.collectLines (r :: rest) = ([], rest) := by
  simp [Resume.collectLines, h]

theorem collectLines_fst (inputs : List Str) :
    (Resume.collectLines inputs).1
      = (inputs.takeWhile fun l => !(strip l).isEmpty).map strip := by
  induction inputs with
  | nil => rfl
  | cons r rest ih =>
    cases hs : strip r with
    | nil => simp [Resume.collectLines, hs, List.takeWhile_cons]
    | cons c cs => simp [Resume.collectLines, hs, List.takeWhile_cons, ih]

theorem collectLines_mem_strip {inputs : List Str} {b : Str}
    (hb : b ∈ (Resume.collectLines inputs).1) : ∃ a, b = strip a ∧ strip a ≠ [] := by
  rw [collectLines_fst] at hb
  obtain ⟨a, ha, rfl⟩ := List.mem_map.mp hb
  have hp := List.mem_takeWhile_imp ha
  refine ⟨a, rfl, fun hcon => ?_⟩
  rw [hcon] at hp
  simp at hp

theorem collectExpGo_blank (fuel : Nat) {t : Str} (rest : List Str) (h : strip t = []) :
    Resume.collectExpGo (fuel + 1) (t :: rest) = ([], rest) := by
  simp [Resume.collectExpGo, h]

theorem collectExpGo_cons (fuel : Nat) {t : Str} (rest : List Str) (h : strip t ≠ []) :
    Resume.collectExpGo (fuel + 1) (t :: rest)
      = ({ title := t, company := (take1 rest).1,
           start_date := (take1 (take1 rest).2).1,
           end_date := (take1 (take1 (take1 rest).2).2).1,
           location := (take1 (take1 (take1 (take1 rest).2).2).2).1,
           responsibilities :=
             (Resume.collectLines (take1 (take1 (take1 (take1 rest).2).2).2).2).1 }
           :: (Resume.collectExpGo fuel
               (Resume.collectLines (take1 (take1 (take1 (take1 rest).2).2).2).2).2).1,
         (Resume.collectExpGo fuel
           (Resume.collectLines (take1 (take1 (take1 (take1 rest).2).2).2).2).2).2) := by
  simp [Resume.collectExpGo, h]

theorem collectExpGo_title_ne (fuel : Nat) :
    ∀ (inputs : List Str) (j : JobEntry),
      j ∈ (Resume.collectExpGo fuel inputs).1 → strip j.title ≠ [] := by
  induction fuel with
  | zero => intro inputs j hj; simp [Resume.collectExpGo] at hj
  | succ fuel ih =>
    intro inputs j hj
    cases inputs with
    | nil => simp [Resume.collectExpGo] at hj
    | cons t rest =>
      by_cases h : strip t = []
      · rw [collectExpGo_blank fuel rest h] at hj
        simp at hj
      · rw [collectExpGo_cons fuel rest h] at hj
        rcases List.mem_cons.mp hj with rfl | hj'
        · simpa using h
        · exact ih _ j hj'

theorem collectEduGo_blank (fuel : Nat) {t : Str} (rest : List Str) (h : strip t = []) :
    Resume.collectEduGo (fuel + 1) (t :: rest) = ([], rest) := by
  simp [Resume.collectEduGo, h]

theorem collectEduGo_cons (fuel : Nat) {t : Str} (rest : List Str) (h : strip t ≠ []) :
    Resume.collectEduGo (fuel + 1) (t :: rest)
      = ({ degree := t, institution := (take1 rest).1,
           start_date := (take1 (take1 rest).2).1,
           end_date := (take1 (take1 (take1 rest).2).2).1,
           location := (take1 (take1 (take1 (take1 rest).2).2).2).1,
           details := (take1 (take1 (take1 (take1 (take1 rest).2).2).2).2).1 }
           :: (Resume.collectEduGo fuel
               (take1 (take1 (take1 (take1 (take1 rest).2).2).2).2).2).1,
         (Resume.collectEduGo fuel
           (take1 (take1 (take1 (take1 (take1 rest).2).2).2).2).2).2) := by
  simp [Resume.collectEduGo, h]

theorem collectEduGo_degree_ne (fuel : Nat) :
    ∀ (inputs : List Str) (e : EducationEntry),
      e ∈ (Resume.collectEduGo fuel inputs).1 → strip e.degree ≠ [] := by
  induction fuel with
  | zero => intro inputs e he; simp [Resume.collectEduGo] at he
  | succ fuel ih =>
    intro inputs e he
    cases inputs with
    | nil => simp [Resume.collectEduGo] at he
    | cons t rest =>
      by_cases h : strip t = []
      · rw [collectEduGo_blank fuel rest h] at he
        simp at he
      · rw [collectEduGo_cons fuel rest h] at he
        rcases List.mem_cons.mp he with rfl | he'
        · simpa using h
        · exact ih _ e he'

theorem collectProjGo_blank (fuel : Nat) {t : Str} (rest : List Str) (h : strip t = []) :
    Resume.collectProjGo (fuel + 1) (t :: rest) = ([], rest) := by
  simp [Resume.collectProjGo, h]

theorem collectProjGo_cons (fuel : Nat) {t : Str} (rest : List Str) (h : strip t ≠ []) :
    Resume.collectProjGo (fuel + 1) (t :: rest)
      = ({ name := t, link := (take1 rest).1,
           description := (take1 (take1 rest).2).1,
           points := (Resume.collectLines (take1 (take1 rest).2).2).1 }
           :: (Resume.collectProjGo fuel
               (Resume.collectLines (take1 (take1 rest).2).2).2).1,
         (Resume.collectProjGo fuel
           (Resume.collectLines (take1 (take1 rest).2).2).2).2) := by
  simp [Resume.collectProjGo, h]

theorem collectProjGo_name_ne (fuel : Nat) :
    ∀ (inputs : List Str) (p : ProjectEntry),
      p ∈ (Resume.collectProjGo fuel inputs).1 → strip p.name ≠ [] := by
  induction fuel with
  | zero => intro inputs p hp; simp [Resume.collectProjGo] at hp
  | succ fuel ih =>
    intro inputs p hp
    cases inputs with
    | nil => simp [Resume.collectProjGo] at hp
    | cons t rest =>
      by_cases h : strip t = []
      · rw [collectProjGo_blank fuel rest h] at hp
        simp at hp
      · rw [collectProjGo_cons fuel rest h] at hp
        rcases List.mem_cons.mp hp with rfl | hp'
        · simpa using h
        · exact ih _ p hp'

theorem collectSkillsGo_blank (fuel : Nat) {t : Str} (rest : List Str) (h : strip t = []) :
    Resume.collectSkillsGo (fuel + 1) (t :: rest) = ([], rest) := by
  simp [Resume.collectSkillsGo, h]

theorem collectSkillsGo_cons (fuel : Nat) {t : Str} (rest : List Str) (h : strip t ≠ []) :
    Resume.collectSkillsGo (fuel + 1) (t :: rest)
      = (Resume.skillJoin t (Resume.collectLines rest).1
           :: (Resume.collectSkillsGo fuel (Resume.collectLines rest).2).1,
         (Resume.collectSkillsGo fuel (Resume.collectLines rest).2).2) := by
  simp [Resume.collectSkillsGo, h]

theorem skillJoin_exists_main {main : Str} (subs : List Str) (h : strip main ≠ []) :
    ∃ c ∈ Resume.skillJoin main subs, isSpace c = false := by
  obtain ⟨c, hc, hcp⟩ := exists_nonspace_of_strip_ne h
  unfold Resume.skillJoin
  by_cases hs : subs = []
  · exact ⟨c, by simpa [hs] using hc, hcp⟩
  · exact ⟨c, by
      rw [if_neg hs]
      exact List.mem_append_left _ (List.mem_append_left _ hc), hcp⟩

theorem collectSkillsGo_entry (fuel : Nat) :
    ∀ (inputs : List Str) (s : Str),
      s ∈ (Resume.collectSkillsGo fuel inputs).1
        → ∃ main subs, s = Resume.skillJoin main subs ∧ strip main ≠ [] := by
  induction fuel with
  | zero => intro inputs s hs; simp [Resume.collectSkillsGo] at hs
  | succ fuel ih =>
    intro inputs s hs
    cases inputs with
    | nil => simp [Resume.collectSkillsGo] at hs
    | cons t rest =>
      by_cases h : strip t = []
      · rw [collectSkillsGo_blank fuel rest h] at hs
        simp at hs
      · rw [collectSkillsGo_cons fuel rest h] at hs
        rcases List.mem_cons.mp hs with rfl | hs'
        · exact ⟨t, (Resume.collectLines rest).1, rfl, h⟩
        · exact ih _ s hs'

theorem r_summarySec_inf (d : ResumeRecord) (css g : Str) :
    Resume.summarySec d.summary <:+: Resume.renderHtml d css g :=
  ⟨Resume.docHead d.name css ++ Resume.headerBlock d ++ Resume.gap,
   Resume.gap ++ Resume.experienceSec d.experience ++ Resume.gap
     ++ Resume.educationSec d.education ++ Resume.gap ++ Resume.projectsSec d.projects
     ++ Resume.gap ++ Resume.skillsSec d.skills ++ Resume.gap
     ++ Resume.strengthsSec d.strengths ++ Resume.footerHtml g,
   by simp [Resume.renderHtml, List.append_assoc]⟩

theorem r_experienceSec_inf (d : ResumeRecord) (css g : Str) :
    Resume.experienceSec d.experience <:+: Resume.renderHtml d css g :=
  ⟨Resume.docHead d.name css ++ Resume.headerBlock d ++ Resume.gap
     ++ Resume.summarySec d.summary ++ Resume.gap,
   Resume.gap ++ Resume.educationSec d.education ++ Resume.gap
     ++ Resume.projectsSec d.projects ++ Resume.gap ++ Resume.skillsSec d.skills
     ++ Resume.gap ++ Resume.strengthsSec d.strengths ++ Resume.footerHtml g,
   by simp [Resume.renderHtml, List.append_assoc]⟩

theorem r_educationSec_inf (d : ResumeRecord) (css g : Str) :
    Resume.educationSec d.education <:+: Resume.renderHtml d css g :=
  ⟨Resume.docHead d.name css ++ Resume.headerBlock d ++ Resume.gap
     ++ Resume.summarySec d.summary ++ Resume.gap ++ Resume.experienceSec d.experience
     ++ Resume.gap,
   Resume.gap ++ Resume.projectsSec d.projects ++ Resume.gap ++ Resume.skillsSec d.skills
     ++ Resume.gap ++ Resume.strengthsSec d.strengths ++ Resume.footerHtml g,
   by simp [Resume.renderHtml, List.append_assoc]⟩

theorem r_projectsSec_inf (d : ResumeRecord) (css g : Str) :
    Resume.projectsSec d.projects <:+: Resume.renderHtml d css g :=
  ⟨Resume.docHead d.name css ++ Resume.headerBlock d ++ Resume.gap
     ++ Resume.summarySec d.summary ++ Resume.gap ++ Resume.experienceSec d.experience
     ++ Resume.gap ++ Resume.educationSec d.education ++ Resume.gap,
   Resume.gap ++ Resume.skillsSec d.skills ++ Resume.gap
     ++ Resume.strengthsSec d.strengths ++ Resume.footerHtml g,
   by simp [Resume.renderHtml, List.append_assoc]⟩

theorem r_skillsSec_inf (d : ResumeRecord) (css g : Str) :
    Resume.skillsSec d.skills <:+: Resume.renderHtml d css g :=
  ⟨Resume.docHead d.name css ++ Resume.headerBlock d ++ Resume.gap
     ++ Resume.summarySec d.summary ++ Resume.gap ++ Resume.experienceSec d.experience
     ++ Resume.gap ++ Resume.educationSec d.education ++ Resume.gap
     ++ Resume.projectsSec d.projects ++ Resume.gap,
   Resume.gap ++ Resume.strengthsSec d.strengths ++ Resume.footerHtml g,
   by simp [Resume.renderHtml, List.append_assoc]⟩

theorem r_strengthsSec_inf (d : ResumeRecord) (css g : Str) :
    Resume.strengthsSec d.strengths <:+: Resume.renderHtml d css g :=
  ⟨Resume.docHead d.name css ++ Resume.headerBlock d ++ Resume.gap
     ++ Resume.summarySec d.summary ++ Resume.gap ++ Resume.experienceSec d.experience
     ++ Resume.gap ++ Resume.educationSec d.education ++ Resume.gap
     ++ Resume.projectsSec d.projects ++ Resume.gap ++ Resume.skillsSec d.skills
     ++ Resume.gap,
   Resume.footerHtml g,
   by simp [Resume.renderHtml, List.append_assoc]⟩

theorem r_footer_inf (d : ResumeRecord) (css g : Str) :
    Resume.footerHtml g <:+: Resume.renderHtml d css g :=
  ⟨Resume.docHead d.name css ++ Resume.headerBlock d ++ Resume.gap
     ++ Resume.summarySec d.summary ++ Resume.gap ++ Resume.experienceSec d.experience
     ++ Resume.gap ++ Resume.educationSec d.education ++ Resume.gap
     ++ Resume.projectsSec d.projects ++ Resume.gap ++ Resume.skillsSec d.skills
     ++ Resume.gap ++ Resume.strengthsSec d.strengths,
   [],
   by simp [Resume.renderHtml, List.append_assoc]⟩

theorem f_skillsSec_inf (d : ResumeRecord) (css : Str) :
    Resume1.skillsSec d.skills <:+: Resume1.renderForm d css := by
  refine ⟨Resume1.docHead d.name css
     ++ ("</style>\n</head>\n<body>\n<div class=\"container\">\n  <!-- Sidebar -->\n  <div class=\"sidebar\">\n    <h2>Contact</h2>\n    ").data
     ++ Resume1.contactBlock d ++ ("\n\n    ").data, ?_, ?_⟩
  · exact ("\n\n    ").data ++ Resume1.strengthsSec d.strengths
     ++ ("\n\n    ").data ++ Resume1.educationSec d.education
     ++ ("\n  </div>\n\n  <!-- Main Content -->\n  <div class=\"main\">\n    <h1 class=\"name\">").data
     ++ d.name ++ ("</h1>\n    ").data
     ++ (if d.tagline = [] then [] else ("<p>").data ++ d.tagline ++ ("</p>").data)
     ++ ("\n\n    ").data ++ Resume1.summarySec d.summary
     ++ ("\n\n    ").data ++ Resume1.experienceSec d.experience
     ++ ("\n\n    ").data ++ Resume1.projectsSec d.projects
     ++ ("\n  </div>\n</div>\n</body>\n</html>\n").data
  · simp [Resume1.renderForm, List.append_assoc]

theorem f_strengthsSec_inf (d : ResumeRecord) (css : Str) :
    Resume1.strengthsSec d.strengths <:+: Resume1.renderForm d css := by
  refine ⟨Resume1.docHead d.name css
     ++ ("</style>\n</head>\n<body>\n<div class=\"container\">\n  <!-- Sidebar -->\n  <div class=\"sidebar\">\n    <h2>Contact</h2>\n    ").data
     ++ Resume1.contactBlock d ++ ("\n\n    ").data ++ Resume1.skillsSec d.skills
     ++ ("\n\n    ").data, ?_, ?_⟩
  · exact ("\n\n    ").data ++ Resume1.educationSec d.education
     ++ ("\n  </div>\n\n  <!-- Main Content -->\n  <div class=\"main\">\n    <h1 class=\"name\">").data
     ++ d.name ++ ("</h1>\n    ").data
     ++ (if d.tagline = [] then [] else ("<p>").data ++ d.tagline ++ ("</p>").data)
     ++ ("\n\n    ").data ++ Resume1.summarySec d.summary
     ++ ("\n\n    ").data ++ Resume1.experienceSec d.experience
     ++ ("\n\n    ").data ++ Resume1.projectsSec d.projects
     ++ ("\n  </div>\n</div>\n</body>\n</html>\n").data
  · simp [Resume1.renderForm, List.append_assoc]

theorem f_educationSec_inf (d : ResumeRecord) (css : Str) :
    Resume1.educationSec d.education <:+: Resume1.renderForm d css := by
  refine ⟨Resume1.docHead d.name css
     ++ ("</style>\n</head>\n<body>\n<div class=\"container\">\n  <!-- Sidebar -->\n  <div class=\"sidebar\">\n    <h2>Contact</h2>\n    ").data
     ++ Resume1.contactBlock d ++ ("\n\n    ").data ++ Resume1.skillsSec d.skills
     ++ ("\n\n    ").data ++ Resume1.strengthsSec d.strengths ++ ("\n\n    ").data, ?_, ?_⟩
  · exact ("\n  </div>\n\n  <!-- Main Content -->\n  <div class=\"main\">\n    <h1 class=\"name\">").data
     ++ d.name ++ ("</h1>\n    ").data
     ++ (if d.tagline = [] then [] else ("<p>").data ++ d.tagline ++ ("</p>").data)
     ++ ("\n\n    ").data ++ Resume1.summarySec d.summary
     ++ ("\n\n    ").data ++ Resume1.experienceSec d.experience
     ++ ("\n\n    ").data ++ Resume1.projectsSec d.projects
     ++ ("\n  </div>\n</div>\n</body>\n</html>\n").data
  · simp [Resume1.renderForm, List.append_assoc]

theorem f_summarySec_inf (d : ResumeRecord) (css : Str) :
    Resume1.summarySec d.summary <:+: Resume1.renderForm d css := by
  refine ⟨Resume1.docHead d.name css
     ++ ("</style>\n</head>\n<body>\n<div class=\"container\">\n  <!-- Sidebar -->\n  <div class=\"sidebar\">\n    <h2>Contact</h2>\n    ").data
     ++ Resume1.contactBlock d ++ ("\n\n    ").data ++ Resume1.skillsSec d.skills
     ++ ("\n\n    ").data ++ Resume1.strengthsSec d.strengths
     ++ ("\n\n    ").data ++ Resume1.educationSec d.education
     ++ ("\n  </div>\n\n  <!-- Main Content -->\n  <div class=\"main\">\n    <h1 class=\"name\">").data
     ++ d.name ++ ("</h1>\n    ").data
     ++ (if d.tagline = [] then [] else ("<p>").data ++ d.tagline ++ ("</p>").data)
     ++ ("\n\n    ").data, ?_, ?_⟩
  · exact ("\n\n    ").data ++ Resume1.experienceSec d.experience
     ++ ("\n\n    ").data ++ Resume1.projectsSec d.projects
     ++ ("\n  </div>\n</div>\n</body>\n</html>\n").data
  · simp [Resume1.renderForm, List.append_assoc]

theorem f_experienceSec_inf (d : ResumeRecord) (css : Str) :
    Resume1.experienceSec d.experience <:+: Resume1.renderForm d css := by
  refine ⟨Resume1.docHead d.name css
     ++ ("</style>\n</head>\n<body>\n<div class=\"container\">\n  <!-- Sidebar -->\n  <div class=\"sidebar\">\n    <h2>Contact</h2>\n    ").data
     ++ Resume1.contactBlock d ++ ("\n\n    ").data ++ Resume1.skillsSec d.skills
     ++ ("\n\n    ").data ++ Resume1.strengthsSec d.strengths
     ++ ("\n\n    ").data ++ Resume1.educationSec d.education
     ++ ("\n  </div>\n\n  <!-- Main Content -->\n  <div class=\"main\">\n    <h1 class=\"name\">").data
     ++ d.name ++ ("</h1>\n    ").data
     ++ (if d.tagline = [] then [] else ("<p>").data ++ d.tagline ++ ("</p>").data)
     ++ ("\n\n    ").data ++ Resume1.summarySec d.summary ++ ("\n\n    ").data, ?_, ?_⟩
  · exact ("\n\n    ").data ++ Resume1.projectsSec d.projects
     ++ ("\n  </div>\n</div>\n</body>\n</html>\n").data
  · simp [Resume1.renderForm, List.append_assoc]

theorem f_projectsSec_inf (d : ResumeRecord) (css : Str) :
    Resume1.projectsSec d.projects <:+: Resume1.renderForm d css := by
  refine ⟨Resume1.docHead d.name css
     ++ ("</style>\n</head>\n<body>\n<div class=\"container\">\n  <!-- Sidebar -->\n  <div class=\"sidebar\">\n    <h2>Contact</h2>\n    ").data
     ++ Resume1.contactBlock d ++ ("\n\n    ").data ++ Resume1.skillsSec d.skills
     ++ ("\n\n    ").data ++ Resume1.strengthsSec d.strengths
     ++ ("\n\n    ").data ++ Resume1.educationSec d.education
     ++ ("\n  </div>\n\n  <!-- Main Content -->\n  <div class=\"main\">\n    <h1 class=\"name\">").data
     ++ d.name ++ ("</h1>\n    ").data
     ++ (if d.tagline = [] then [] else ("<p>").data ++ d.tagline ++ ("</p>").data)
     ++ ("\n\n    ").data ++ Resume1.summarySec d.summary
     ++ ("\n\n    ").data ++ Resume1.experienceSec d.experience
     ++ ("\n\n    ").data, ?_, ?_⟩
  · exact ("\n  </div>\n</div>\n</body>\n</html>\n").data
  · simp [Resume1.renderForm, List.append_assoc]

theorem infix_head_chunk {t chunk mid tail : Str} (h : t <:+: chunk) :
    t <:+: chunk ++ mid ++ tail :=
  h.trans (((List.prefix_append chunk mid).trans
    (List.prefix_append (chunk ++ mid) tail)).isInfix)

theorem r_title_infix_jobHtml (j : JobEntry) : j.title <:+: Resume.jobHtml j :=
  ⟨("\n      <div class=\"job\">\n        <div class=\"title\">").data,
   (" â€” ").data ++ j.company ++ ("</div>\n        <div class=\"meta\">").data
     ++ j.start_date ++ (" â€” ").data ++ jinjaOr j.end_date ("Present").data
     ++ Resume.jobPost j,
   by simp [Resume.jobHtml, Resume.jobPre, List.append_assoc]⟩

theorem r_degree_infix_eduHtml (e : EducationEntry) : e.degree <:+: Resume.eduHtml e :=
  ⟨("\n      <div class=\"education\">\n        <div class=\"title\">").data,
   (" â€” ").data ++ e.institution ++ ("</div>\n        <div class=\"meta\">").data
     ++ e.start_date ++ (" â€” ").data ++ jinjaOr e.end_date []
     ++ (" Â· ").data ++ jinjaOr e.location [] ++ ("</div>\n        ").data
     ++ (if e.details = [] then [] else ("<div>").data ++ e.details ++ ("</div>").data)
     ++ ("\n      </div>\n      ").data,
   by simp [Resume.eduHtml, List.append_assoc]⟩

theorem r_name_infix_projHtml (p : ProjectEntry) : p.name <:+: Resume.projHtml p :=
  ⟨("\n      <div class=\"project\">\n        <div class=\"title\">").data,
   ("</div>\n        ").data
     ++ (if p.link = [] then [] else ("<div class=\"meta\">").data ++ p.link ++ ("</div>").data)
     ++ ("\n        ").data
     ++ (if p.description = [] then [] else ("<div>").data ++ p.description ++ ("</div>").data)
     ++ ("\n        ").data ++ Resume.pointsBlock p.points
     ++ ("\n      </div>\n      ").data,
   by simp [Resume.projHtml, List.append_assoc]⟩

theorem r_jobHtml_inf {d : ResumeRecord} {j : JobEntry} (css g : Str)
    (hj : j ∈ d.experience) : Resume.jobHtml j <:+: Resume.renderHtml d css g := by
  have h1 : Resume.jobHtml j <:+: catMap Resume.jobHtml d.experience :=
    mem_catMap_inf _ hj
  have h2 : catMap Resume.jobHtml d.experience <:+: Resume.experienceSec d.experience := by
    rw [Resume.experienceSec, if_neg (List.ne_nil_of_mem hj)]
    exact infix_mid _ _ _
  exact (h1.trans h2).trans (r_experienceSec_inf d css g)

theorem r_projHtml_inf {d : ResumeRecord} {p : ProjectEntry} (css g : Str)
    (hp : p ∈ d.projects) : Resume.projHtml p <:+: Resume.renderHtml d css g := by
  have h1 : Resume.projHtml p <:+: catMap Resume.projHtml d.projects :=
    mem_catMap_inf _ hp
  have h2 : catMap Resume.projHtml d.projects <:+: Resume.projectsSec d.projects := by
    rw [Resume.projectsSec, if_neg (List.ne_nil_of_mem hp)]
    exact infix_mid _ _ _
  exact (h1.trans h2).trans (r_projectsSec_inf d css g)

theorem r_respBlock_infix_jobHtml (j : JobEntry) :
    Resume.respBlock j.responsibilities <:+: Resume.jobHtml j :=
  ⟨Resume.jobPre j ++ jinjaOr j.end_date ("Present").data ++ (" Â· ").data
     ++ jinjaOr j.location [] ++ ("</div>\n        ").data,
   ("\n      </div>\n      ").data,
   by simp [Resume.jobHtml, Resume.jobPost, List.append_assoc]⟩

theorem r_pointsBlock_infix_projHtml (p : ProjectEntry) :
    Resume.pointsBlock p.points <:+: Resume.projHtml p :=
  ⟨("\n      <div class=\"project\">\n        <div class=\"title\">").data ++ p.name
     ++ ("</div>\n        ").data
     ++ (if p.link = [] then [] else ("<div class=\"meta\">").data ++ p.link ++ ("</div>").data)
     ++ ("\n        ").data
     ++ (if p.description = [] then [] else ("<div>").data ++ p.description ++ ("</div>").data)
     ++ ("\n        ").data,
   ("\n      </div>\n      ").data,
   by simp [Resume.projHtml, List.append_assoc]⟩

theorem f_title_infix_jobHtml (j : JobEntry) : j.title <:+: Resume1.jobHtml j :=
  ⟨("\n      <div>\n        <div class=\"title\">").data,
   ("</div>\n        <div>").data ++ j.company ++ (" · ").data ++ j.start_date
     ++ (" — ").data ++ jinjaOr j.end_date ("Present").data ++ Resume1.jobPost j,
   by simp [Resume1.jobHtml, Resume1.jobPre, List.append_assoc]⟩

theorem f_degree_infix_eduHtml (e : EducationEntry) : e.degree <:+: Resume1.eduHtml e :=
  ⟨("\n      <div><b>").data,
   ("</b><br>").data ++ e.institution ++ ("<br>").data ++ e.start_date
     ++ (" - ").data ++ e.end_date ++ ("</div>\n    ").data,
   by simp [Resume1.eduHtml, List.append_assoc]⟩

theorem f_name_infix_projHtml (p : ProjectEntry) : p.name <:+: Resume1.projHtml p :=
  ⟨("\n      <div>\n        <div class=\"title\">").data,
   ("</div>\n        ").data
     ++ (if p.description = [] then [] else ("<p>").data ++ p.description ++ ("</p>").data)
     ++ ("\n        <ul>\n        ").data ++ catMap Resume1.pointLi p.points
     ++ ("\n        </ul>\n      </div>\n    ").data,
   by simp [Resume1.projHtml, List.append_assoc]⟩

theorem f_jobHtml_inf {d : ResumeRecord} {j : JobEntry} (css : Str)
    (hj : j ∈ d.experience) : Resume1.jobHtml j <:+: Resume1.renderForm d css := by
  have h1 : Resume1.jobHtml j <:+: catMap Resume1.jobHtml d.experience :=
    mem_catMap_inf _ hj
  have h2 : catMap Resume1.jobHtml d.experience <:+: Resume1.experienceSec d.experience := by
    rw [Resume1.experienceSec, if_neg (List.ne_nil_of_mem hj)]
    exact infix_mid _ _ _
  exact (h1.trans h2).trans (f_experienceSec_inf d css)

theorem f_projHtml_inf {d : ResumeRecord} {p : ProjectEntry} (css : Str)
    (hp : p ∈ d.projects) : Resume1.projHtml p <:+: Resume1.renderForm d css := by
  have h1 : Resume1.projHtml p <:+: catMap Resume1.projHtml d.projects :=
    mem_catMap_inf _ hp
  have h2 : catMap Resume1.projHtml d.projects <:+: Resume1.projectsSec d.projects := by
    rw [Resume1.projectsSec, if_neg (List.ne_nil_of_mem hp)]
    exact infix_mid _ _ _
  exact (h1.trans h2).trans (f_projectsSec_inf d css)

theorem f_resps_infix_jobHtml (j : JobEntry) :
    catMap Resume1.respLi j.responsibilities <:+: Resume1.jobHtml j :=
  ⟨Resume1.jobPre j ++ jinjaOr j.end_date ("Present").data
     ++ ("</div>\n        <ul>\n        ").data,
   ("\n        </ul>\n      </div>\n    ").data,
   by simp [Resume1.jobHtml, Resume1.jobPost, List.append_assoc]⟩

theorem f_points_infix_projHtml (p : ProjectEntry) :
    catMap Resume1.pointLi p.points <:+: Resume1.projHtml p :=
  ⟨("\n      <div>\n        <div class=\"title\">").data ++ p.name
     ++ ("</div>\n        ").data
     ++ (if p.description = [] then [] else ("<p>").data ++ p.description ++ ("</p>").data)
     ++ ("\n        <ul>\n        ").data,
   ("\n        </ul>\n      </div>\n    ").data,
   by simp [Resume1.projHtml, List.append_assoc]⟩

theorem r_docHead_isPrefix (d : ResumeRecord) (css g : Str) :
    Resume.docHead d.name css <+: Resume.renderHtml d css g :=
  ⟨Resume.headerBlock d
     ++ Resume.gap ++ Resume.summarySec d.summary
     ++ Resume.gap ++ Resume.experienceSec d.experience
     ++ Resume.gap ++ Resume.educationSec d.education
     ++ Resume.gap ++ Resume.projectsSec d.projects
     ++ Resume.gap ++ Resume.skillsSec d.skills
     ++ Resume.gap ++ Resume.strengthsSec d.strengths
     ++ Resume.footerHtml g,
   by simp [Resume.renderHtml, List.append_assoc]⟩

theorem name_infix_docHead (n css : Str) : n <:+: Resume.docHead n css :=
  ⟨("\n<!doctype html>\n<html>\n<head>\n  <meta charset=\"utf-8\">\n  <meta name=\"viewport\" content=\"width=device-width,initial-scale=1\">\n  <title>").data,
   (" - Resume</title>\n  <style>").data ++ css,
   by simp [Resume.docHead, List.append_assoc]⟩

theorem infix_decomp {m s : Str} (h : m <:+: s) : ∃ x y, s = x ++ m ++ y := by
  obtain ⟨x, y, e⟩ := h
  exact ⟨x, y, e.symm⟩

theorem ordered_section {α : Type} (key f : α → Str) (l : List α) {sec render : Str}
    (hf : ∀ a, key a <:+: f a) (hsec : catMap f l <:+: sec)
    (hrender : sec <:+: render) : ordered (l.map key) render :=
  ordered_of_inf (hsec.trans hrender)
    (ordered_catMap key f (fun a => infix_decomp (hf a)) l)

theorem r_catMap_exp (l : List JobEntry) :
    catMap Resume.jobHtml l <:+: Resume.experienceSec l := by
  rcases eq_or_ne l [] with rfl | h
  · simp [Resume.experienceSec, catMap]
  · rw [Resume.experienceSec, if_neg h]; exact infix_mid _ _ _

theorem r_catMap_edu (l : List EducationEntry) :
    catMap Resume.eduHtml l <:+: Resume.educationSec l := by
  rcases eq_or_ne l [] with rfl | h
  · simp [Resume.educationSec, catMap]
  · rw [Resume.educationSec, if_neg h]; exact infix_mid _ _ _

theorem r_catMap_proj (l : List ProjectEntry) :
    catMap Resume.projHtml l <:+: Resume.projectsSec l := by
  rcases eq_or_ne l [] with rfl | h
  · simp [Resume.projectsSec, catMap]
  · rw [Resume.projectsSec, if_neg h]; exact infix_mid _ _ _

theorem r_catMap_skills (l : List Str) :
    catMap Resume.skillLi l <:+: Resume.skillsSec l := by
  rcases eq_or_ne l [] with rfl | h
  · simp [Resume.skillsSec, catMap]
  · rw [Resume.skillsSec, if_neg h]; exact infix_mid _ _ _

theorem r_catMap_strengths (l : List Str) :
    catMap Resume.strengthLi l <:+: Resume.strengthsSec l := by
  rcases eq_or_ne l [] with rfl | h
  · simp [Resume.strengthsSec, catMap]
  · rw [Resume.strengthsSec, if_neg h]; exact infix_mid _ _ _

theorem r_catMap_respBlock (rs : List Str) :
    catMap Resume.respLi rs <:+: Resume.respBlock rs := by
  rcases eq_or_ne rs [] with rfl | h
  · simp [Resume.respBlock, catMap]
  · rw [Resume.respBlock, if_neg h]; exact infix_mid _ _ _

theorem r_catMap_pointsBlock (ps : List Str) :
    catMap Resume.pointLi ps <:+: Resume.pointsBlock ps := by
  rcases eq_or_ne ps [] with rfl | h
  · simp [Resume.pointsBlock, catMap]
  · rw [Resume.pointsBlock, if_neg h]; exact infix_mid _ _ _

theorem f_catMap_exp (l : List JobEntry) :
    catMap Resume1.jobHtml l <:+: Resume1.experienceSec l := by
  rcases eq_or_ne l [] with rfl | h
  · simp [Resume1.experienceSec, catMap]
  · rw [Resume1.experienceSec, if_neg h]; exact infix_mid _ _ _

theorem f_catMap_edu (l : List EducationEntry) :
    catMap Resume1.eduHtml l <:+: Resume1.educationSec l := by
  rcases eq_or_ne l [] with rfl | h
  · simp [Resume1.educationSec, catMap]
  · rw [Resume1.educationSec, if_neg h]; exact infix_mid _ _ _

theorem f_catMap_proj (l : List ProjectEntry) :
    catMap Resume1.projHtml l <:+: Resume1.projectsSec l := by
  rcases eq_or_ne l [] with rfl | h
  · simp [Resume1.projectsSec, catMap]
  · rw [Resume1.projectsSec, if_neg h]; exact infix_mid _ _ _

theorem f_catMap_skills (l : List Str) :
    catMap Resume1.skillLi l <:+: Resume1.skillsSec l := by
  rcases eq_or_ne l [] with rfl | h
  · simp [Resume1.skillsSec, catMap]
  · rw [Resume1.skillsSec, if_neg h]; exact infix_mid _ _ _

theorem f_catMap_strengths (l : List Str) :
    catMap Resume1.strengthLi l <:+: Resume1.strengthsSec l := by
  rcases eq_or_ne l [] with rfl | h
  · simp [Resume1.strengthsSec, catMap]
  · rw [Resume1.strengthsSec, if_neg h]; exact infix_mid _ _ _

/-- C9: rendering cannot fail on a well-formed record (the embedded
renderer is a total function of the record), and on the degenerate record
with only `name` set it yields exactly the minimal document: a doctype-led
HTML string containing the name, with all six optional sections and all
conditional header lines contributing nothing — witnessed concretely by
the absence of any `<h2>` heading. -/
theorem C9_degenerate_minimal :
    (∀ n css g : Str, Resume.renderHtml (degenerate n) css g = Resume.minimalHtml n css g)
    ∧ (∀ n css g : Str, n <:+: Resume.renderHtml (degenerate n) css g)
    ∧ (("\n<!doctype html>").data <+:
        Resume.renderHtml (degenerate ("Jane Doe").data) [] ("TS").data)
    ∧ ¬ (("<h2>").data <:+:
        Resume.renderHtml (degenerate ("Jane Doe").data) [] ("TS").data) := by
  refine ⟨?_, ?_, ?_, ?_⟩
  · intro n css g
    simp [Resume.renderHtml, Resume.minimalHtml, Resume.headerBlock, Resume.summarySec,
      Resume.experienceSec, Resume.educationSec, Resume.projectsSec, Resume.skillsSec,
      Resume.strengthsSec, degenerate, List.append_assoc]
  · intro n css g
    exact (name_infix_docHead n css).trans
      (r_docHead_isPrefix (degenerate n) css g).isInfix
  · decide
  · decide

/-- C3 counterexample: a record whose summary is the whitespace-only
string `"   "` still gets a Summary section in the rendered output — the
template's truthiness test only treats the empty string as absent, so the
claim that whitespace-only fields are rendered like absent ones is false. -/
theorem C3_counterexample :
    ("<h2>Summary</h2>").data <:+:
      Resume.renderHtml { degenerate ("Jane Doe").data with summary := ("   ").data }
        [] ("TS").data := by
  decide

/-- C3 (amended): the renderer's section-visibility test is plain
non-emptiness — any non-empty string, whitespace-only included, makes the
section appear; only the prompt collector's summary normalization
(`summary if summary.strip() else ""`) maps whitespace-only input to the
empty string before rendering. -/
theorem C3_amended :
    (∀ (d : ResumeRecord) (css g : Str), d.summary ≠ [] →
      ("<h2>Summary</h2>").data <:+: Resume.renderHtml d css g)
    ∧ (∀ s : Str, strip s = [] → Resume.normalizeSummary s = [])
    ∧ (∀ s : Str, strip s ≠ [] → Resume.normalizeSummary s = s) := by
  refine ⟨?_, ?_, ?_⟩
  · intro d css g h
    refine List.IsInfix.trans ?_ (r_summarySec_inf d css g)
    rw [Resume.summarySec, if_neg h]
    exact infix_head_chunk (by decide)
  · intro s h
    simp [Resume.normalizeSummary, h]
  · intro s h
    simp [Resume.normalizeSummary, h]

/-- C3 witness: the amended statement at the concrete whitespace-only
summary `"   "`. -/
theorem C3_witness :
    (("<h2>Summary</h2>").data <:+:
      Resume.renderHtml { degenerate ("A").data with summary := ("   ").data }
        [] ("TS").data)
    ∧ Resume.normalizeSummary ("   ").data = [] :=
  ⟨C3_amended.1 { degenerate ("A").data with summary := ("   ").data } [] ("TS").data
     (by decide),
   C3_amended.2.1 ("   ").data (by decide)⟩

/-- C4: in both templates a job's end-date slot renders `Present` exactly
when `end_date` is the empty string and the verbatim value otherwise, and
each job's rendered block occurs inside the full document. -/
theorem C4_end_date_present (j : JobEntry) (d : ResumeRecord) (css g : Str) :
    (j.end_date = [] →
      Resume.jobHtml j = Resume.jobPre j ++ ("Present").data ++ Resume.jobPost j
      ∧ Resume1.jobHtml j = Resume1.jobPre j ++ ("Present").data ++ Resume1.jobPost j)
    ∧ (j.end_date ≠ [] →
      Resume.jobHtml j = Resume.jobPre j ++ j.end_date ++ Resume.jobPost j
      ∧ Resume1.jobHtml j = Resume1.jobPre j ++ j.end_date ++ Resume1.jobPost j)
    ∧ (j ∈ d.experience →
      Resume.jobHtml j <:+: Resume.renderHtml d css g
      ∧ Resume1.jobHtml j <:+: Resume1.renderForm d css) := by
  refine ⟨?_, ?_, ?_⟩
  · intro h
    constructor <;> simp [Resume.jobHtml, Resume1.jobHtml, jinjaOr, h]
  · intro h
    constructor <;> simp [Resume.jobHtml, Resume1.jobHtml, jinjaOr, h]
  · intro hj
    exact ⟨r_jobHtml_inf css g hj, f_jobHtml_inf css hj⟩

/-- C4 witness: a concrete open-ended job (`end_date = ""`) inside a
concrete record, via the theorem itself. -/
theorem C4_witness :
    (Resume.jobHtml ⟨("Engineer").data, ("Acme").data, ("2020").data, [], [], []⟩
      = Resume.jobPre ⟨("Engineer").data, ("Acme").data, ("2020").data, [], [], []⟩
        ++ ("Present").data
        ++ Resume.jobPost ⟨("Engineer").data, ("Acme").data, ("2020").data, [], [], []⟩)
    ∧ Resume.jobHtml ⟨("Engineer").data, ("Acme").data, ("2020").data, [], [], []⟩
      <:+: Resume.renderHtml
        { degenerate ("A").data with
            experience := [⟨("Engineer").data, ("Acme").data, ("2020").data, [], [], []⟩] }
        [] ("TS").data := by
  have h := C4_end_date_present
    ⟨("Engineer").data, ("Acme").data, ("2020").data, [], [], []⟩
    { degenerate ("A").data with
        experience := [⟨("Engineer").data, ("Acme").data, ("2020").data, [], [], []⟩] }
    [] ("TS").data
  exact ⟨(h.1 rfl).1, (h.2.2 (by decide)).1⟩

/-- C2: in both templates each optional section (summary, experience,
education, projects, skills, strengths) contributes nothing at all to the
output when its field is empty, and contributes its heading (and, for the
summary, its body) to the rendered document exactly when the field is
non-empty; the first conjunct pins the single-column render down as the
concatenation of its header, the six section slots and the footer. -/
theorem C2_sections_iff_nonempty (d : ResumeRecord) (css g : Str) :
    (Resume.renderHtml d css g
      = Resume.docHead d.name css ++ Resume.headerBlock d
        ++ Resume.gap ++ Resume.summarySec d.summary
        ++ Resume.gap ++ Resume.experienceSec d.experience
        ++ Resume.gap ++ Resume.educationSec d.education
        ++ Resume.gap ++ Resume.projectsSec d.projects
        ++ Resume.gap ++ Resume.skillsSec d.skills
        ++ Resume.gap ++ Resume.strengthsSec d.strengths
        ++ Resume.footerHtml g)
    ∧ (d.summary = [] → Resume.summarySec d.summary = [])
    ∧ (d.summary ≠ [] →
        ("<h2>Summary</h2>").data <:+: Resume.renderHtml d css g
        ∧ d.summary <:+: Resume.renderHtml d css g)
    ∧ (d.experience = [] → Resume.experienceSec d.experience = [])
    ∧ (d.experience ≠ [] → ("<h2>Experience</h2>").data <:+: Resume.renderHtml d css g)
    ∧ (d.education = [] → Resume.educationSec d.education = [])
    ∧ (d.education ≠ [] → ("<h2>Education</h2>").data <:+: Resume.renderHtml d css g)
    ∧ (d.projects = [] → Resume.projectsSec d.projects = [])
    ∧ (d.projects ≠ [] → ("<h2>Projects</h2>").data <:+: Resume.renderHtml d css g)
    ∧ (d.skills = [] → Resume.skillsSec d.skills = [])
    ∧ (d.skills ≠ [] → ("<h2>Skills</h2>").data <:+: Resume.renderHtml d css g)
    ∧ (d.strengths = [] → Resume.strengthsSec d.strengths = [])
    ∧ (d.strengths ≠ [] → ("<h2>Strengths</h2>").data <:+: Resume.renderHtml d css g)
    ∧ (d.summary = [] → Resume1.summarySec d.summary = [])
    ∧ (d.summary ≠ [] → ("<h2>Summary</h2>").data <:+: Resume1.renderForm d css)
    ∧ (d.experience = [] → Resume1.experienceSec d.experience = [])
    ∧ (d.experience ≠ [] → ("<h2>Experience</h2>").data <:+: Resume1.renderForm d css)
    ∧ (d.education = [] → Resume1.educationSec d.education = [])
    ∧ (d.education ≠ [] → ("<h2>Education</h2>").data <:+: Resume1.renderForm d css)
    ∧ (d.projects = [] → Resume1.projectsSec d.projects = [])
    ∧ (d.projects ≠ [] → ("<h2>Projects</h2>").data <:+: Resume1.renderForm d css)
    ∧ (d.skills = [] → Resume1.skillsSec d.skills = [])
    ∧ (d.skills ≠ [] → ("<h2>Skills</h2>").data <:+: Resume1.renderForm d css)
    ∧ (d.strengths = [] → Resume1.strengthsSec d.strengths = [])
    ∧ (d.strengths ≠ [] → ("<h2>Strengths</h2>").data <:+: Resume1.renderForm d css) := by
  refine ⟨rfl, ?_, ?_, ?_, ?_, ?_, ?_, ?_, ?_, ?_, ?_, ?_, ?_,
          ?_, ?_, ?_, ?_, ?_, ?_, ?_, ?_, ?_, ?_, ?_, ?_⟩
  · intro h; simp [Resume.summarySec, h]
  · intro h
    constructor
    · refine List.IsInfix.trans ?_ (r_summarySec_inf d css g)
      rw [Resume.summarySec, if_neg h]
      exact infix_head_chunk (by decide)
    · refine List.IsInfix.trans ?_ (r_summarySec_inf d css g)
      rw [Resume.summarySec, if_neg h]
      exact infix_mid _ _ _
  · intro h; simp [Resume.experienceSec, h]
  · intro h
    refine List.IsInfix.trans ?_ (r_experienceSec_inf d css g)
    rw [Resume.experienceSec, if_neg h]
    exact infix_head_chunk (by decide)
  · intro h; simp [Resume.educationSec, h]
  · intro h
    refine List.IsInfix.trans ?_ (r_educationSec_inf d css g)
    rw [Resume.educationSec, if_neg h]
    exact infix_head_chunk (by decide)
  · intro h; simp [Resume.projectsSec, h]
  · intro h
    refine List.IsInfix.trans ?_ (r_projectsSec_inf d css g)
    rw [Resume.projectsSec, if_neg h]
    exact infix_head_chunk (by decide)
  · intro h; simp [Resume.skillsSec, h]
  · intro h
    refine List.IsInfix.trans ?_ (r_skillsSec_inf d css g)
    rw [Resume.skillsSec, if_neg h]
    exact infix_head_chunk (by decide)
  · intro h; simp [Resume.strengthsSec, h]
  · intro h
    refine List.IsInfix.trans ?_ (r_strengthsSec_inf d css g)
    rw [Resume.strengthsSec, if_neg h]
    exact infix_head_chunk (by decide)
  · intro h; simp [Resume1.summarySec, h]
  · intro h
    refine List.IsInfix.trans ?_ (f_summarySec_inf d css)
    rw [Resume1.summarySec, if_neg h]
    exact infix_head_chunk (by decide)
  · intro h; simp [Resume1.experienceSec, h]
  · intro h
    refine List.IsInfix.trans ?_ (f_experienceSec_inf d css)
    rw [Resume1.experienceSec, if_neg h]
    exact infix_head_chunk (by decide)
  · intro h; simp [Resume1.educationSec, h]
  · intro h
    refine List.IsInfix.trans ?_ (f_educationSec_inf d css)
    rw [Resume1.educationSec, if_neg h]
    exact infix_head_chunk (by decide)
  · intro h; simp [Resume1.projectsSec, h]
  · intro h
    refine List.IsInfix.trans ?_ (f_projectsSec_inf d css)
    rw [Resume1.projectsSec, if_neg h]
    exact infix_head_chunk (by decide)
  · intro h; simp [Resume1.skillsSec, h]
  · intro h
    refine List.IsInfix.trans ?_ (f_skillsSec_inf d css)
    rw [Resume1.skillsSec, if_neg h]
    exact infix_head_chunk (by decide)
  · intro h; simp [Resume1.strengthsSec, h]
  · intro h
    refine List.IsInfix.trans ?_ (f_strengthsSec_inf d css)
    rw [Resume1.strengthsSec, if_neg h]
    exact infix_head_chunk (by decide)

/-- C2 witness: both directions at concrete records — a record with a
summary and skills shows both headings, via the theorem itself. -/
theorem C2_witness :
    (("<h2>Summary</h2>").data <:+:
      Resume.renderHtml { degenerate ("A").data with summary := ("S").data } [] ("TS").data)
    ∧ (("<h2>Skills</h2>").data <:+:
        Resume1.renderForm { degenerate ("A").data with skills := [("K").data] } []) := by
  have h1 := C2_sections_iff_nonempty
    { degenerate ("A").data with summary := ("S").data } [] ("TS").data
  have h2 := C2_sections_iff_nonempty
    { degenerate ("A").data with skills := [("K").data] } [] ("TS").data
  exact ⟨(h1.2.2.1 (by decide)).1,
         h2.2.2.2.2.2.2.2.2.2.2.2.2.2.2.2.2.2.2.2.2.2.2.1 (by decide)⟩

/-- C8: both renderers present every ordered sequence of the record —
experience titles, education degrees, project names, skills, strengths,
and each entry's bullet list — as left-to-right occurrences in exactly the
stored order; nothing is dropped or re-ordered. -/
theorem C8_order_preserved (d : ResumeRecord) (css g : Str) :
    ordered (d.experience.map JobEntry.title) (Resume.renderHtml d css g)
    ∧ ordered (d.education.map EducationEntry.degree) (Resume.renderHtml d css g)
    ∧ ordered (d.projects.map ProjectEntry.name) (Resume.renderHtml d css g)
    ∧ ordered d.skills (Resume.renderHtml d css g)
    ∧ ordered d.strengths (Resume.renderHtml d css g)
    ∧ (∀ j ∈ d.experience, ordered j.responsibilities (Resume.renderHtml d css g))
    ∧ (∀ p ∈ d.projects, ordered p.points (Resume.renderHtml d css g))
    ∧ ordered (d.experience.map JobEntry.title) (Resume1.renderForm d css)
    ∧ ordered (d.education.map EducationEntry.degree) (Resume1.renderForm d css)
    ∧ ordered (d.projects.map ProjectEntry.name) (Resume1.renderForm d css)
    ∧ ordered d.skills (Resume1.renderForm d css)
    ∧ ordered d.strengths (Resume1.renderForm d css)
    ∧ (∀ j ∈ d.experience, ordered j.responsibilities (Resume1.renderForm d css))
    ∧ (∀ p ∈ d.projects, ordered p.points (Resume1.renderForm d css)) := by
  refine ⟨?_, ?_, ?_, ?_, ?_, ?_, ?_, ?_, ?_, ?_, ?_, ?_, ?_, ?_⟩
  · exact ordered_section JobEntry.title Resume.jobHtml d.experience
      r_title_infix_jobHtml (r_catMap_exp _) (r_experienceSec_inf d css g)
  · exact ordered_section EducationEntry.degree Resume.eduHtml d.education
      r_degree_infix_eduHtml (r_catMap_edu _) (r_educationSec_inf d css g)
  · exact ordered_section ProjectEntry.name Resume.projHtml d.projects
      r_name_infix_projHtml (r_catMap_proj _) (r_projectsSec_inf d css g)
  · have h := ordered_section (fun s => s) Resume.skillLi d.skills
      (fun a => infix_mid _ _ _) (r_catMap_skills _) (r_skillsSec_inf d css g)
    simpa using h
  · have h := ordered_section (fun s => s) Resume.strengthLi d.strengths
      (fun a => infix_mid _ _ _) (r_catMap_strengths _) (r_strengthsSec_inf d css g)
    simpa using h
  · intro j hj
    have h := ordered_section (fun s => s) Resume.respLi j.responsibilities
      (fun a => infix_mid _ _ _) (r_catMap_respBlock _)
      ((r_respBlock_infix_jobHtml j).trans (r_jobHtml_inf css g hj))
    simpa using h
  · intro p hp
    have h := ordered_section (fun s => s) Resume.pointLi p.points
      (fun a => infix_mid _ _ _) (r_catMap_pointsBlock _)
      ((r_pointsBlock_infix_projHtml p).trans (r_projHtml_inf css g hp))
    simpa using h
  · exact ordered_section JobEntry.title Resume1.jobHtml d.experience
      f_title_infix_jobHtml (f_catMap_exp _) (f_experienceSec_inf d css)
  · exact ordered_section EducationEntry.degree Resume1.eduHtml d.education
      f_degree_infix_eduHtml (f_catMap_edu _) (f_educationSec_inf d css)
  · exact ordered_section ProjectEntry.name Resume1.projHtml d.projects
      f_name_infix_projHtml (f_catMap_proj _) (f_projectsSec_inf d css)
  · have h := ordered_section (fun s => s) Resume1.skillLi d.skills
      (fun a => infix_mid _ _ _) (f_catMap_skills _) (f_skillsSec_inf d css)
    simpa using h
  · have h := ordered_section (fun s => s) Resume1.strengthLi d.strengths
      (fun a => infix_mid _ _ _) (f_catMap_strengths _) (f_strengthsSec_inf d css)
    simpa using h
  · intro j hj
    have h := ordered_section (fun s => s) Resume1.respLi j.responsibilities
      (fun a => infix_mid _ _ _) List.infix_rfl
      ((f_resps_infix_jobHtml j).trans (f_jobHtml_inf css hj))
    simpa using h
  · intro p hp
    have h := ordered_section (fun s => s) Resume1.pointLi p.points
      (fun a => infix_mid _ _ _) List.infix_rfl
      ((f_points_infix_projHtml p).trans (f_projHtml_inf css hp))
    simpa using h

/-- C8 witness: a concrete two-bullet job inside a concrete record, via
the theorem itself. -/
theorem C8_witness :
    ordered [("Built X").data, ("Shipped Y").data]
      (Resume.renderHtml
        { degenerate ("A").data with
            experience := [⟨("Engineer").data, ("Acme").data, ("2020").data, [], [],
              [("Built X").data, ("Shipped Y").data]⟩] }
        [] ("TS").data) := by
  have h := C8_order_preserved
    { degenerate ("A").data with
        experience := [⟨("Engineer").data, ("Acme").data, ("2020").data, [], [],
          [("Built X").data, ("Shipped Y").data]⟩] }
    [] ("TS").data
  exact h.2.2.2.2.2.1
    ⟨("Engineer").data, ("Acme").data, ("2020").data, [], [],
      [("Built X").data, ("Shipped Y").data]⟩ (by decide)

/-- C1 (code evaluated at the failing input): both scripts render through
`jinja2.Template` with autoescape at its default `False`, so a record
whose name is `<script>alert(1)</script>` is emitted verbatim into markup
position — the outputs contain the raw script tag and no `&lt;` (nor any
`&amp;`) entity anywhere, contradicting the required HTML-entity
escaping. -/
theorem C1_no_escaping :
    (("<script>alert(1)</script>").data <:+:
      Resume.renderHtml (degenerate ("<script>alert(1)</script>").data) []
        ("2025-01-01 00:00 UTC").data)
    ∧ (("<script>alert(1)</script>").data <:+:
      Resume1.renderForm (degenerate ("<script>alert(1)</script>").data) [])
    ∧ ¬ (("&lt;").data <:+:
      Resume.renderHtml (degenerate ("<script>alert(1)</script>").data) []
        ("2025-01-01 00:00 UTC").data)
    ∧ ¬ (("&lt;").data <:+:
      Resume1.renderForm (degenerate ("<script>alert(1)</script>").data) [])
    ∧ ¬ (("&amp;").data <:+:
      Resume.renderHtml (degenerate ("<script>alert(1)</script>").data) []
        ("2025-01-01 00:00 UTC").data) := by
  refine ⟨?_, ?_, ?_, ?_, ?_⟩ <;> decide

/-- C5 counterexample: the form variant's text-area splitter keeps empty
pieces — the block `"a\n\nb"` yields the bullet list `["a", "", "b"]`,
so a blank line inside the text area does produce an empty bullet. -/
theorem C5_counterexample :
    Resume1.formSplitLines ("a\n\nb").data = [("a").data, [], ("b").data]
    ∧ ([] : Str) ∈ Resume1.formSplitLines ("a\n\nb").data := by
  constructor <;> decide

/-- C5 (amended): the prompt-variant bullet loop stores exactly the
stripped non-blank lines before the first blank response, in order, and
never stores an empty bullet; the form variant instead splits its block on
every newline keeping all pieces verbatim (joining them with newlines
recovers the block, so blank lines survive as empty bullets), and only the
fully empty block yields no bullets. -/
theorem C5_amended :
    (∀ inputs : List Str, (Resume.collectLines inputs).1
      = (inputs.takeWhile fun l => !(strip l).isEmpty).map strip)
    ∧ (∀ (inputs : List Str) (b : Str), b ∈ (Resume.collectLines inputs).1 → b ≠ [])
    ∧ (∀ s : Str, s ≠ [] → joinNl (Resume1.formSplitLines s) = s)
    ∧ Resume1.formSplitLines [] = [] := by
  refine ⟨collectLines_fst, ?_, ?_, rfl⟩
  · intro inputs b hb
    obtain ⟨a, rfl, ha⟩ := collectLines_mem_strip hb
    exact ha
  · intro s h
    rw [Resume1.formSplitLines, if_neg h]
    exact joinNl_splitNl s

/-- C5 witness: the amended statement at concrete inputs. -/
theorem C5_witness :
    joinNl (Resume1.formSplitLines ("a\n\nb").data) = ("a\n\nb").data
    ∧ ("x").data ≠ ([] : Str) :=
  ⟨C5_amended.2.2.1 ("a\n\nb").data (by decide),
   C5_amended.2.1 [(" x ").data, [], ("y").data] ("x").data (by decide)⟩

/-- C6 counterexample: the form variant stores the raw comma-separated
sub-skill text after the colon, so main `Languages` with sub-skill text
`Go,Rust` stores `Languages: Go,Rust` — not the claimed normalized
`Languages: Go, Rust`. -/
theorem C6_counterexample :
    Resume1.formSkillEntry ("Languages").data ("Go,Rust").data
      = [("Languages: Go,Rust").data]
    ∧ ("Languages: Go,Rust").data ≠ ("Languages: Go, Rust").data := by
  constructor <;> decide

/-- C6 (amended): the prompt variant stores `main ++ ": " ++ sub-skills
joined with ", "` (bare `main` with no sub-skills), exactly matching the
spec's examples, and its skills loop feeds the bullet-collected sub-skills
into that join; the form variant appends the user's comma-separated text
verbatim after `": "`, so it coincides with the ", "-joined form only when
the text was typed with ", " separators. -/
theorem C6_amended :
    Resume.skillJoin ("Languages").data [("Go").data, ("Rust").data]
      = ("Languages: Go, Rust").data
    ∧ Resume.skillJoin ("Leadership").data [] = ("Leadership").data
    ∧ (∀ (main : Str) (subs : List Str), subs ≠ [] →
        Resume.skillJoin main subs = main ++ (": ").data ++ joinSep (", ").data subs)
    ∧ (∀ (main : Str) (rest : List Str), strip main ≠ [] →
        ∃ more r, Resume.collectSkills (main :: rest)
          = (Resume.skillJoin main (Resume.collectLines rest).1 :: more, r))
    ∧ (∀ main subs : Str, main ≠ [] → subs ≠ [] →
        Resume1.formSkillEntry main subs = [main ++ (": ").data ++ subs])
    ∧ (∀ main : Str, main ≠ [] → Resume1.formSkillEntry main [] = [main])
    ∧ Resume1.formSkillEntry ("Languages").data ("Go, Rust").data
      = [("Languages: Go, Rust").data] := by
  refine ⟨by decide, rfl, ?_, ?_, ?_, ?_, by decide⟩
  · intro main subs h
    rw [Resume.skillJoin, if_neg h]
  · intro main rest h
    refine ⟨(Resume.collectSkillsGo (rest.length + 1) (Resume.collectLines rest).2).1,
            (Resume.collectSkillsGo (rest.length + 1) (Resume.collectLines rest).2).2, ?_⟩
    show Resume.collectSkillsGo ((main :: rest).length + 1) (main :: rest) = _
    rw [List.length_cons]
    exact collectSkillsGo_cons (rest.length + 1) rest h
  · intro main subs h1 h2
    simp [Resume1.formSkillEntry, h1, h2]
  · intro main h
    simp [Resume1.formSkillEntry, h]

/-- C6 witness: the amended statement at concrete skills. -/
theorem C6_witness :
    Resume.skillJoin ("A").data [("B").data]
      = ("A").data ++ (": ").data ++ joinSep (", ").data [("B").data]
    ∧ Resume1.formSkillEntry ("A").data ("B").data
      = [("A").data ++ (": ").data ++ ("B").data] :=
  ⟨C6_amended.2.2.1 ("A").data [("B").data] (by decide),
   C6_amended.2.2.2.2.1 ("A").data ("B").data (by decide) (by decide)⟩

/-- C7 counterexample: the form variant's template has no generation-time
footer — its output for a concrete record contains no `UTC` and no
`Generated on` anywhere, so the claim that both variants stamp their
output is false. -/
theorem C7_counterexample :
    ¬ (("UTC").data <:+: Resume1.renderForm (degenerate ("Jane Doe").data) [])
    ∧ ¬ (("Generated on").data <:+:
        Resume1.renderForm (degenerate ("Jane Doe").data) []) := by
  constructor <;> decide

/-- C7 (amended): only the prompt variant stamps its output — its footer
embeds `Generated on ` followed by `utcnow().strftime('%Y-%m-%d %H:%M
UTC')`, zero-padded as the concrete instants show; the form variant's
template has no timestamp slot. -/
theorem C7_amended :
    (∀ (d : ResumeRecord) (css : Str) (t : Resume.UTCTime),
      (("Generated on ").data ++ Resume.strftimeUtc t ++ ("</div>").data)
        <:+: Resume.render_html d css t)
    ∧ Resume.strftimeUtc ⟨2026, 10, 12, 9, 5⟩ = ("2026-10-12 09:05 UTC").data
    ∧ Resume.strftimeUtc ⟨2026, 1, 2, 23, 59⟩ = ("2026-01-02 23:59 UTC").data := by
  refine ⟨?_, by decide, by decide⟩
  intro d css t
  refine List.IsInfix.trans ?_ (r_footer_inf d css (Resume.strftimeUtc t))
  have e1 : ("\n\n    <div style=\"margin-top:20px; font-size:12px; color:#888\">").data
      ++ ("Generated on ").data
      = ("\n\n    <div style=\"margin-top:20px; font-size:12px; color:#888\">Generated on ").data := by
    decide
  have e2 : ("</div>").data ++ ("\n  </div>\n</body>\n</html>\n").data
      = ("</div>\n  </div>\n</body>\n</html>\n").data := by
    decide
  refine ⟨("\n\n    <div style=\"margin-top:20px; font-size:12px; color:#888\">").data,
          ("\n  </div>\n</body>\n</html>\n").data, ?_⟩
  rw [Resume.footerHtml, ← e1, ← e2]
  simp [List.append_assoc]

/-- C10: in every repeated-entry group of the prompt collector
(experience, education, projects, skills, strengths) a whitespace-only
response to the group's primary-key prompt ends that group with no entry
appended, and consequently every stored entry's primary-key field (job
title, degree, project name, the main-skill part of a stored skill
string, a stored strength line) contains at least one non-whitespace
character. -/
theorem C10_primary_key_nonblank :
    (∀ (t : Str) (rest : List Str), strip t = [] →
      Resume.collectExperience (t :: rest) = ([], rest))
    ∧ (∀ (inputs : List Str) (j : JobEntry),
        j ∈ (Resume.collectExperience inputs).1 → ∃ c ∈ j.title, isSpace c = false)
    ∧ (∀ (t : Str) (rest : List Str), strip t = [] →
        Resume.collectEducation (t :: rest) = ([], rest))
    ∧ (∀ (inputs : List Str) (e : EducationEntry),
        e ∈ (Resume.collectEducation inputs).1 → ∃ c ∈ e.degree, isSpace c = false)
    ∧ (∀ (t : Str) (rest : List Str), strip t = [] →
        Resume.collectProjects (t :: rest) = ([], rest))
    ∧ (∀ (inputs : List Str) (p : ProjectEntry),
        p ∈ (Resume.collectProjects inputs).1 → ∃ c ∈ p.name, isSpace c = false)
    ∧ (∀ (t : Str) (rest : List Str), strip t = [] →
        Resume.collectSkills (t :: rest) = ([], rest))
    ∧ (∀ (inputs : List Str) (s : Str),
        s ∈ (Resume.collectSkills inputs).1 →
          ∃ main subs, s = Resume.skillJoin main subs ∧ ∃ c ∈ main, isSpace c = false)
    ∧ (∀ (inputs : List Str) (s : Str),
        s ∈ (Resume.collectSkills inputs).1 → ∃ c ∈ s, isSpace c = false)
    ∧ (∀ (t : Str) (rest : List Str), strip t = [] →
        Resume.collectStrengths (t :: rest) = ([], rest))
    ∧ (∀ (inputs : List Str) (b : Str),
        b ∈ (Resume.collectStrengths inputs).1 → ∃ c ∈ b, isSpace c = false) := by
  refine ⟨?_, ?_, ?_, ?_, ?_, ?_, ?_, ?_, ?_, ?_, ?_⟩
  · intro t rest h
    show Resume.collectExpGo ((t :: rest).length + 1) (t :: rest) = ([], rest)
    rw [List.length_cons]
    exact collectExpGo_blank (rest.length + 1) rest h
  · intro inputs j hj
    exact exists_nonspace_of_strip_ne (collectExpGo_title_ne (inputs.length + 1) inputs j hj)
  · intro t rest h
    show Resume.collectEduGo ((t :: rest).length + 1) (t :: rest) = ([], rest)
    rw [List.length_cons]
    exact collectEduGo_blank (rest.length + 1) rest h
  · intro inputs e he
    exact exists_nonspace_of_strip_ne (collectEduGo_degree_ne (inputs.length + 1) inputs e he)
  · intro t rest h
    show Resume.collectProjGo ((t :: rest).length + 1) (t :: rest) = ([], rest)
    rw [List.length_cons]
    exact collectProjGo_blank (rest.length + 1) rest h
  · intro inputs p hp
    exact exists_nonspace_of_strip_ne (collectProjGo_name_ne (inputs.length + 1) inputs p hp)
  · intro t rest h
    show Resume.collectSkillsGo ((t :: rest).length + 1) (t :: rest) = ([], rest)
    rw [List.length_cons]
    exact collectSkillsGo_blank (rest.length + 1) rest h
  · intro inputs s hs
    obtain ⟨main, subs, rfl, hm⟩ := collectSkillsGo_entry (inputs.length + 1) inputs s hs
    exact ⟨main, subs, rfl, exists_nonspace_of_strip_ne hm⟩
  · intro inputs s hs
    obtain ⟨main, subs, rfl, hm⟩ := collectSkillsGo_entry (inputs.length + 1) inputs s hs
    exact skillJoin_exists_main subs hm
  · intro t rest h
    exact collectLines_blank rest h
  · intro inputs b hb
    obtain ⟨a, rfl, ha⟩ := collectLines_mem_strip hb
    exact exists_nonspace_mem_strip ha

/-- C10 witness: a concrete prompt script producing one experience entry,
via the theorem itself. -/
theorem C10_witness :
    ∃ c ∈ ("Engineer").data, isSpace c = false :=
  C10_primary_key_nonblank.2.1
    [("Engineer").data, ("Acme").data, ("2020").data, [], ("NY").data, [], []]
    ⟨("Engineer").data, ("Acme").data, ("2020").data, [], ("NY").data, []⟩
    (by decide)
